import Mathlib

/-!
Verification of the p2pchat terminal application core: the UI focus state
machinery, the connection-log selection state, the input dispatcher and the
network-event handler, embedded shallowly from the Rust sources
(src/app.rs, src/ui.rs, src/input.rs, src/connection.rs, src/utils.rs).

External effects (the libp2p swarm, multiaddr parsing, dialing, publishing)
are modelled by an environment record supplying the outcome of each call,
and handlers additionally return the list of effects they requested, so that
claims such as "no dial is attempted" are expressible.  A `usize` subtraction
that can underflow (a panic in the Rust source) is modelled by an
Option-valued result, `none` standing for the panic.
-/

namespace P2pchat

/-- The opaque libp2p swarm handle.  Only its identity and its local peer id
are observable to the core (src/connection.rs builds it; the core stores and
replaces it). -/
structure Swarm where
  peerId : String
  deriving DecidableEq

/-- tui's `Rect { x, y, width, height }` (u16 fields, modelled as Nat). -/
structure Rect where
  x : Nat
  y : Nat
  width : Nat
  height : Nat
  deriving DecidableEq

/-- tui's `ListState`: a selected index and a scroll offset. -/
structure ListState where
  selected : Option Nat
  offset : Nat
  deriving DecidableEq

/-- tui's `ListState::select`: stores the index; when the index is `None`
the stored offset is also reset (the behaviour the comment in src/app.rs
relies on). -/
def ListState.select (s : ListState) (index : Option Nat) : ListState :=
  match index with
  | some i => { s with selected := some i }
  | none => { selected := none, offset := 0 }

/-- `PageFocus` from src/ui.rs. -/
inductive PageFocus
  | chat
  | connection
  deriving DecidableEq

/-- `ConnectionPageFocus` from src/ui.rs. -/
inductive ConnectionPageFocus
  | connectionLog
  | regenerateSwarm
  | addrInputField
  deriving DecidableEq

/-- `CycleFocus::next` for `PageFocus` (src/ui.rs). -/
def PageFocus.next : PageFocus → PageFocus
  | .chat => .connection
  | .connection => .chat

/-- `CycleFocus::prev` for `PageFocus` (src/ui.rs). -/
def PageFocus.prev : PageFocus → PageFocus
  | .chat => .connection
  | .connection => .chat

/-- `CycleFocus::next` for `ConnectionPageFocus` (src/ui.rs). -/
def ConnectionPageFocus.next : ConnectionPageFocus → ConnectionPageFocus
  | .connectionLog => .regenerateSwarm
  | .regenerateSwarm => .addrInputField
  | .addrInputField => .connectionLog

/-- `CycleFocus::prev` for `ConnectionPageFocus` (src/ui.rs). -/
def ConnectionPageFocus.prev : ConnectionPageFocus → ConnectionPageFocus
  | .connectionLog => .addrInputField
  | .regenerateSwarm => .connectionLog
  | .addrInputField => .regenerateSwarm

/-- The `Ui` struct from src/ui.rs. -/
structure Ui where
  page_focus : PageFocus
  connection_page_focus : ConnectionPageFocus
  chat_input : String
  addr_input : String
  connection_log_allocation : Option Rect
  connection_log_liststate : ListState
  deriving DecidableEq

/-- `Ui::new` (src/ui.rs): note that it selects index 0 of the connection
log list state even though the log starts empty. -/
def Ui.new : Ui :=
  { page_focus := .chat
    connection_page_focus := .addrInputField
    chat_input := ""
    addr_input := ""
    connection_log_allocation := none
    connection_log_liststate := ListState.select { selected := none, offset := 0 } (some 0) }

/-- A chat message as used by src/input.rs, src/connection.rs and src/ui.rs:
text plus the authoring peer's identity. -/
structure Message where
  text : String
  peer_id : String
  deriving DecidableEq

/-- `Message::new`. -/
def Message.new (text : String) (peer_id : String) : Message :=
  { text := text, peer_id := peer_id }

/-- The `Connection` struct from src/connection.rs: the live swarm handle,
the diagnostic log and the current topic. -/
structure Connection where
  swarm : Swarm
  log : List String
  current_topic : String
  deriving DecidableEq

/-- `Connection::push_log_entry` (src/connection.rs). -/
def Connection.push_log_entry (c : Connection) (message : String) : Connection :=
  { c with log := c.log ++ [message] }

/-- `Connection::new` (src/connection.rs): fresh swarm, empty log, the fixed
default topic. -/
def Connection.new (swarm : Swarm) : Connection :=
  { swarm := swarm, log := [], current_topic := "test-net" }

/-- The `App` struct from src/app.rs. -/
structure App where
  ui : Ui
  history : List Message
  connection : Connection
  deriving DecidableEq

/-- `App::new` (src/app.rs): fresh `Ui`, empty history, fresh connection
(parameterized by the swarm the external library produced). -/
def App.new (swarm : Swarm) : App :=
  { ui := Ui.new, history := [], connection := Connection.new swarm }

/-- `App::connection_log_next` (src/app.rs).  The source computes
`self.connection.log.len() - 1` on `usize` without a guard; when a selection
is present and the log is empty this subtraction underflows (a panic in a
debug build), modelled here by `none`. -/
def App.connection_log_next (app : App) : Option App :=
  match app.ui.connection_log_liststate.selected with
  | some i =>
      if app.connection.log.length = 0 then
        none
      else
        let j := if app.connection.log.length - 1 ≤ i then i else i + 1
        some { app with ui := { app.ui with
          connection_log_liststate := app.ui.connection_log_liststate.select (some j) } }
  | none =>
      some { app with ui := { app.ui with
        connection_log_liststate := app.ui.connection_log_liststate.select (some 0) } }

/-- `App::connection_log_previous` (src/app.rs). -/
def App.connection_log_previous (app : App) : App :=
  let i :=
    match app.ui.connection_log_liststate.selected with
    | some i => if i = 0 then 0 else i - 1
    | none => 0
  { app with ui := { app.ui with
    connection_log_liststate := app.ui.connection_log_liststate.select (some i) } }

/-- `App::connection_log_unselect` (src/app.rs).  Defined in the source but
never invoked by any caller. -/
def App.connection_log_unselect (app : App) : App :=
  { app with ui := { app.ui with
    connection_log_liststate := app.ui.connection_log_liststate.select none } }

/-- Appending one entry to the diagnostic log at the `App` level
(`app.connection.log.push(..)` / `app.connection.push_log_entry(..)` in the
source). -/
def App.pushLog (app : App) (message : String) : App :=
  { app with connection := app.connection.push_log_entry message }

/-- `coord_in_rect` (src/utils.rs), exactly as written there: the ranges are
`rect.x ..= rect.width` and `rect.y ..= rect.height`. -/
def coord_in_rect (coord : Nat × Nat) (rect : Rect) : Bool :=
  decide (rect.x ≤ coord.1 ∧ coord.1 ≤ rect.width) &&
    decide (rect.y ≤ coord.2 ∧ coord.2 ≤ rect.height)

/-- The rectangle-containment predicate the specification describes
("the screen coordinate falls within the region"):
x ≤ column < x + width and y ≤ row < y + height.  Stated from the spec's
words, for comparison with `coord_in_rect` above. -/
def coord_in_rect_spec (coord : Nat × Nat) (rect : Rect) : Bool :=
  decide (rect.x ≤ coord.1 ∧ coord.1 < rect.x + rect.width) &&
    decide (rect.y ≤ coord.2 ∧ coord.2 < rect.y + rect.height)

/-- The selection invariant of spec §3 / §4.3: whenever the connection-log
selection index is present it is strictly below the log's length. -/
def selInvariant (app : App) : Prop :=
  match app.ui.connection_log_liststate.selected with
  | some i => i < app.connection.log.length
  | none => True

instance (app : App) : Decidable (selInvariant app) := by
  unfold selInvariant
  exact match app.ui.connection_log_liststate.selected with
    | some _ => inferInstanceAs (Decidable (_ < _))
    | none => inferInstanceAs (Decidable True)

/-- crossterm `KeyCode`, restricted to the codes the handlers inspect. -/
inductive KeyCode
  | tab
  | enter
  | backspace
  | down
  | up
  | char (c : Char)
  deriving DecidableEq

/-- crossterm `KeyModifiers`, restricted to the modifier sets the handlers
match on (`NONE`, `CONTROL`, `SHIFT`); `mother` stands for every other
modifier combination (all of which fall into the catch-all arms). -/
inductive KeyModifiers
  | mnone
  | mcontrol
  | mshift
  | mother
  deriving DecidableEq

/-- crossterm `MouseEventKind`, restricted to the kinds inspected. -/
inductive MouseEventKind
  | scrollDown
  | scrollUp
  | mother
  deriving DecidableEq

/-- crossterm `MouseEvent`: kind plus (column, row) coordinate. -/
structure MouseEvent where
  kind : MouseEventKind
  column : Nat
  row : Nat
  deriving DecidableEq

/-- crossterm `Event`: key events, mouse events, and the remaining variants
(resize and so on) that every handler ignores. -/
inductive Event
  | key (code : KeyCode) (modifiers : KeyModifiers)
  | mouse (m : MouseEvent)
  | otherInput
  deriving DecidableEq

/-- `InputTask` from src/input.rs. -/
inductive InputTask
  | cont
  | quit
  deriving DecidableEq

/-- An effect requested from the external networking library by a handler:
publishing bytes on a topic, dialing an address, or generating a fresh
swarm.  Handlers return the list of effects they issued, so that "no dial
is attempted" is directly observable. -/
inductive Effect
  | publish (topic : String) (data : String)
  | dial (addr : String)
  | generateSwarm
  deriving DecidableEq

/-- The environment: outcomes of the external library's fallible operations
(`Gossipsub::publish`, `Connection::generate_swarm`, `Swarm::dial`) and of
`str::parse::<Multiaddr>` applied to the address buffer (each handler call
performs at most one of each; a multiaddr is modelled by its string form). -/
structure Env where
  publishResult : Except String Unit
  generateResult : Except String Swarm
  dialResult : Except String Unit
  parseResult : Except String String

/-- `Connection::dial` (src/connection.rs): unconditionally appends the
`"dialing: <addr>"` log entry, then asks the swarm to dial; the swarm's
result is propagated to the caller. -/
def Connection.dial (env : Env) (c : Connection) (addr : String) :
    Connection × Except String Unit :=
  (c.push_log_entry ("dialing: " ++ addr), env.dialResult)

/-- `handle_input_event_chat_page` (src/input.rs). -/
def handle_input_event_chat_page (env : Env) (event : Event) (app : App) :
    App × List Effect :=
  match event with
  | .key .backspace .mnone =>
      ({ app with ui := { app.ui with chat_input := app.ui.chat_input.dropRight 1 } }, [])
  | .key .enter .mnone =>
      let conn :=
        match env.publishResult with
        | .ok _ => app.connection
        | .error e => app.connection.push_log_entry ("Publish error: " ++ e)
      ({ app with
          connection := conn
          history := app.history ++ [Message.new app.ui.chat_input app.connection.swarm.peerId]
          ui := { app.ui with chat_input := "" } },
        [Effect.publish app.connection.current_topic app.ui.chat_input])
  | .key (.char 'u') .mcontrol =>
      ({ app with ui := { app.ui with chat_input := "" } }, [])
  | .key (.char c) .mnone =>
      ({ app with ui := { app.ui with chat_input := app.ui.chat_input.push c } }, [])
  | .key (.char c) .mshift =>
      ({ app with ui := { app.ui with chat_input := app.ui.chat_input.push c } }, [])
  | _ => (app, [])

/-- `handle_input_event_connection_page` (src/input.rs).  The Down/Up keys
first cycle the sub-field focus; the event is then dispatched against the
(possibly new) focused sub-field.  `none` models the panic propagated from
`App::connection_log_next`. -/
def handle_input_event_connection_page (env : Env) (event : Event) (app : App) :
    Option (App × List Effect) :=
  let app :=
    match event with
    | .key .down .mnone =>
        { app with ui := { app.ui with
            connection_page_focus := app.ui.connection_page_focus.next } }
    | .key .up .mnone =>
        { app with ui := { app.ui with
            connection_page_focus := app.ui.connection_page_focus.prev } }
    | _ => app
  match app.ui.connection_page_focus with
  | .connectionLog =>
      match event with
      | .mouse m =>
          let mouse_coord := (m.column, m.row)
          match m.kind with
          | .scrollDown =>
              match app.ui.connection_log_allocation with
              | some allocation =>
                  if coord_in_rect mouse_coord allocation then
                    (app.connection_log_next).map (fun a => (a, []))
                  else some (app, [])
              | none => some (app, [])
          | .scrollUp =>
              match app.ui.connection_log_allocation with
              | some allocation =>
                  if coord_in_rect mouse_coord allocation then
                    some (app.connection_log_previous, [])
                  else some (app, [])
              | none => some (app, [])
          | .mother => some (app, [])
      | _ => some (app, [])
  | .regenerateSwarm =>
      match event with
      | .key .enter .mnone =>
          let app := { app with connection := { app.connection with current_topic := "test-net" } }
          let app := { app with connection := { app.connection with log := [] } }
          match env.generateResult with
          | .ok swarm =>
              some ({ app with connection := { app.connection with swarm := swarm } },
                [Effect.generateSwarm])
          | .error e =>
              some ({ app with connection :=
                  (app.connection.push_log_entry ("regenerate_swarm() failed with Err " ++ e)) },
                [Effect.generateSwarm])
      | _ => some (app, [])
  | .addrInputField =>
      match event with
      | .key (.char c) .mnone =>
          some ({ app with ui := { app.ui with addr_input := app.ui.addr_input.push c } }, [])
      | .key (.char c) .mshift =>
          some ({ app with ui := { app.ui with addr_input := app.ui.addr_input.push c } }, [])
      | .key .backspace .mnone =>
          some ({ app with ui := { app.ui with addr_input := app.ui.addr_input.dropRight 1 } }, [])
      | .key .enter .mnone =>
          match env.parseResult with
          | .ok dialed =>
              match app.connection.dial env dialed with
              | (conn, .ok _) =>
                  some ({ app with connection := conn }, [Effect.dial dialed])
              | (conn, .error e) =>
                  some ({ app with connection := (conn.push_log_entry
                      ("dialing to addr " ++ dialed ++ " failed with Err " ++ e)) },
                    [Effect.dial dialed])
          | .error e =>
              some ({ app with connection := (app.connection.push_log_entry
                  ("parsing input as MultiAddr failed with Err " ++ e)) }, [])
      | _ => some (app, [])

/-- The per-page dispatch at the end of `handle_input_event` (src/input.rs). -/
def dispatchPage (env : Env) (event : Event) (app : App) :
    Option (App × List Effect × InputTask) :=
  match app.ui.page_focus with
  | .chat =>
      let r := handle_input_event_chat_page env event app
      some (r.1, r.2, InputTask.cont)
  | .connection =>
      (handle_input_event_connection_page env event app).map
        (fun r => (r.1, r.2, InputTask.cont))

/-- `handle_input_event` (src/input.rs): Tab cycles the page focus (and the
event is still forwarded to the page handler), Ctrl-c returns `Quit`
immediately, everything else is dispatched to the focused page's handler. -/
def handle_input_event (env : Env) (event : Event) (app : App) :
    Option (App × List Effect × InputTask) :=
  match event with
  | .key .tab .mnone =>
      dispatchPage env event
        { app with ui := { app.ui with page_focus := app.ui.page_focus.next } }
  | .key (.char 'c') .mcontrol => some (app, [], InputTask.quit)
  | _ => dispatchPage env event app

/-- `GossipsubEvent`, restricted to what `handle_connection_event` inspects:
the `Message` variant (payload modelled by its lossily-decoded text) and
every other behaviour event, carried by its debug description. -/
inductive GossipsubEvent
  | message (propagation_source : String) (message_id : String)
      (data : String) (source : String)
  | gother (debugDescription : String)
  deriving DecidableEq

/-- `SwarmEvent`: the new-listen-address announcement, behaviour events,
transport-level errors (listener/dial/connection errors, carried by their
description) and the remaining variants; the latter two are matched by the
source's catch-all `_ => {}` arm. -/
inductive SwarmEvent
  | newListenAddr (address : String)
  | behaviour (event : GossipsubEvent)
  | transportError (description : String)
  | otherEvent
  deriving DecidableEq

/-- `handle_connection_event` (src/connection.rs). -/
def handle_connection_event (connection_event : SwarmEvent) (app : App) : App :=
  match connection_event with
  | .newListenAddr address =>
      { app with connection := app.connection.push_log_entry ("Listening on " ++ address) }
  | .behaviour (.message peer_id id data source) =>
      { app with
          connection := { app.connection with log := app.connection.log ++
            ["Got message: " ++ data ++ " with id: " ++ id ++ " from peer: " ++ peer_id] }
          history := app.history ++ [Message.new data source] }
  | .behaviour (.gother d) =>
      { app with connection := app.connection.push_log_entry d }
  | .transportError _ => app
  | .otherEvent => app

/-! Concrete fixtures used by counterexamples and witnesses. -/

/-- A concrete swarm handle standing for the one built at startup. -/
def swarmP : Swarm := ⟨"peerP"⟩

/-- A concrete swarm handle standing for a freshly regenerated one. -/
def swarmQ : Swarm := ⟨"peerQ"⟩

/-- An environment in which every external operation succeeds except
multiaddr parsing, which rejects its input. -/
def envOk : Env :=
  { publishResult := .ok ()
    generateResult := .ok swarmQ
    dialResult := .ok ()
    parseResult := .error "invalid multiaddr" }

/-- An environment in which swarm regeneration fails. -/
def envGenErr : Env :=
  { envOk with generateResult := .error "keygen failed" }

/-- An environment in which publishing fails. -/
def envPubErr : Env :=
  { envOk with publishResult := .error "InsufficientPeers" }

/-- A state on the Connection page with the regenerate action focused and a
nonempty diagnostic log; the initial selection (index 0) is still present. -/
def appRegen : App :=
  { ui := { Ui.new with connection_page_focus := .regenerateSwarm }
    history := []
    connection := { swarm := swarmP, log := ["old entry"], current_topic := "test-net" } }

/-- A state on the Connection page with the connection log focused, a
recorded screen region, one log entry and no selection. -/
def appScroll : App :=
  { ui :=
      { Ui.new with
          connection_page_focus := .connectionLog
          connection_log_allocation := some ⟨2, 2, 3, 3⟩
          connection_log_liststate := ⟨none, 0⟩ }
    history := []
    connection := { swarm := swarmP, log := ["a"], current_topic := "test-net" } }

/-- A state whose selection index (5) exceeds the log's length (3). -/
def appOverrun : App :=
  { ui := { Ui.new with connection_log_liststate := ⟨some 5, 0⟩ }
    history := []
    connection := { swarm := swarmP, log := ["a", "b", "c"], current_topic := "test-net" } }

/-- A two-entry log with index 0 selected. -/
def appSat : App :=
  { ui := { Ui.new with connection_log_liststate := ⟨some 0, 0⟩ }
    history := []
    connection := { swarm := swarmP, log := ["a", "b"], current_topic := "test-net" } }

/-- A Chat-page state with "hello" typed into the chat input. -/
def appChat : App :=
  { ui := { Ui.new with chat_input := "hello" }
    history := []
    connection := Connection.new swarmP }

/-- A Connection-page state with the address field focused and an
unparseable address typed in. -/
def appAddr : App :=
  { ui :=
      { Ui.new with
          page_focus := .connection
          connection_page_focus := .addrInputField
          addr_input := "not-an-address" }
    history := []
    connection := Connection.new swarmP }

/-- Claim C10: for every connection-field focus value, next then prev is the
identity, prev then next is the identity, and next applied three times is
the identity (the focus cycle has length 3). -/
theorem c10_focus_cycle :
    ∀ f : ConnectionPageFocus,
      f.next.prev = f ∧ f.prev.next = f ∧ f.next.next.next = f := by
  intro f
  cases f <;> exact ⟨rfl, rfl, rfl⟩

/-- Claim C3: immediately after construction the connection log is empty
while index 0 is selected, and `connection_log_next` hits the unguarded
`log.len() - 1` subtraction with length 0: it underflows (the embedded
function returns `none`, the model of the panic), so the operation is not
total on reachable states. -/
theorem c3_next_underflow_initial_state :
    (App.new swarmP).ui.connection_log_liststate.selected = some 0
    ∧ (App.new swarmP).connection.log = []
    ∧ (App.new swarmP).connection_log_next = none :=
  ⟨rfl, rfl, rfl⟩

/-- Claim C1, counterexample: after the initial state construction the
selection index is present (index 0) but the connection log is empty, so
the index is not strictly less than the log's length — the invariant fails
at this reachable state. -/
theorem c1_counterexample :
    (App.new swarmP).ui.connection_log_liststate.selected = some 0
    ∧ (App.new swarmP).connection.log.length = 0
    ∧ ¬ selInvariant (App.new swarmP) :=
  ⟨rfl, rfl, by decide⟩

/-- Claim C2: evaluation of the code at the failing input.  Pressing Enter
with the regenerate action focused (generation succeeding) replaces the
swarm and clears the log, but leaves the connection-log selection at its
stale index 0 instead of resetting it to "none". -/
theorem c2_regenerate_keeps_stale_selection :
    (handle_input_event_connection_page envOk
        (Event.key KeyCode.enter KeyModifiers.mnone) appRegen).map
        (fun r => (r.1.connection.swarm, r.1.connection.log,
          r.1.ui.connection_log_liststate.selected, r.2))
      = some (swarmQ, [], some 0, [Effect.generateSwarm])
    ∧ (some 0 : Option Nat) ≠ none :=
  ⟨rfl, by decide⟩

/-- Claim C4, counterexample: a transport-level error event falls into the
handler's catch-all arm: the state is returned unchanged and the log does
not grow by one entry, contrary to the claim. -/
theorem c4_counterexample :
    handle_connection_event (SwarmEvent.transportError "connection reset")
        (App.new swarmP) = App.new swarmP
    ∧ (handle_connection_event (SwarmEvent.transportError "connection reset")
          (App.new swarmP)).connection.log.length
        ≠ (App.new swarmP).connection.log.length + 1 :=
  ⟨rfl, by decide⟩

/-- Claim C4, amended: a behaviour-level protocol event other than a pub-sub
message has its debug description appended to the diagnostic log (the log
grows by exactly one entry, and neither the swarm handle nor the history
changes); a transport-level error leaves the application state entirely
unchanged — it is not logged — and never terminates the session. -/
theorem c4_network_event_logging :
    ∀ (app : App) (d : String),
      (handle_connection_event (SwarmEvent.behaviour (GossipsubEvent.gother d))
          app).connection.log = app.connection.log ++ [d]
      ∧ (handle_connection_event (SwarmEvent.behaviour (GossipsubEvent.gother d))
          app).connection.swarm = app.connection.swarm
      ∧ (handle_connection_event (SwarmEvent.behaviour (GossipsubEvent.gother d))
          app).history = app.history
      ∧ handle_connection_event (SwarmEvent.transportError d) app = app := by
  intro app d
  exact ⟨rfl, rfl, rfl, rfl⟩

/-- Claim C5, counterexample: with the recorded region x=2, y=2, width=3,
height=3, the coordinate (4, 4) lies inside the region in the sense of the
claim (x ≤ 4 < x + width, y ≤ 4 < y + height), yet a scroll-down there
leaves the state unchanged: the source's `coord_in_rect` compares the
coordinate against `width`/`height` as absolute bounds, so the hit test
fails and `next` is not invoked (invoking it would have changed the
selection). -/
theorem c5_counterexample :
    coord_in_rect_spec (4, 4) ⟨2, 2, 3, 3⟩ = true
    ∧ coord_in_rect (4, 4) ⟨2, 2, 3, 3⟩ = false
    ∧ handle_input_event_connection_page envOk
        (Event.mouse ⟨MouseEventKind.scrollDown, 4, 4⟩) appScroll
        = some (appScroll, [])
    ∧ appScroll.connection_log_next ≠ some appScroll :=
  ⟨by decide, by decide, rfl, by decide⟩

/-- Claim C9, counterexample: on a log of length 3 with current selection
index 5, `connection_log_next` keeps the selection at 5, whereas the claim
demands min(5+1, 3-1) = 2; the selection also stays above L-1 = 2, so
"never exceed L-1" fails for this selection. -/
theorem c9_counterexample :
    appOverrun.connection.log.length = 3
    ∧ (appOverrun.connection_log_next).map
        (fun a => a.ui.connection_log_liststate.selected) = some (some 5)
    ∧ min (5 + 1) (appOverrun.connection.log.length - 1) = 2
    ∧ (5 : Nat) ≠ 2 :=
  ⟨rfl, rfl, by decide, by decide⟩

/-- Claim C5, amended: while the ConnectionLog sub-field has focus and a
connection-log screen region has been recorded, a mouse scroll-down
(respectively scroll-up) invokes the selection's next (previous) operation
exactly when the source's hit test accepts the coordinate — that is, when
rect.x ≤ column ≤ rect.width and rect.y ≤ row ≤ rect.height, the stored
width and height fields being used as absolute bounds — and an event whose
coordinate fails that test leaves the state unchanged. -/
theorem c5_scroll_hit_test (env : Env) (app : App) (rect : Rect) (col row : Nat)
    (hfoc : app.ui.connection_page_focus = ConnectionPageFocus.connectionLog)
    (halloc : app.ui.connection_log_allocation = some rect) :
    (handle_input_event_connection_page env
        (Event.mouse ⟨MouseEventKind.scrollDown, col, row⟩) app
      = if coord_in_rect (col, row) rect then
          (app.connection_log_next).map (fun a => (a, ([] : List Effect)))
        else some (app, []))
    ∧ (handle_input_event_connection_page env
        (Event.mouse ⟨MouseEventKind.scrollUp, col, row⟩) app
      = if coord_in_rect (col, row) rect then
          some (app.connection_log_previous, ([] : List Effect))
        else some (app, [])) := by
  obtain ⟨⟨pf, cpf, ci, ai, alloc, ls⟩, hist, conn⟩ := app
  simp only [] at hfoc halloc
  subst hfoc
  subst halloc
  exact ⟨rfl, rfl⟩

/-- Claim C5, witness for the amended theorem. -/
theorem c5_scroll_hit_test_witness :
    handle_input_event_connection_page envOk
        (Event.mouse ⟨MouseEventKind.scrollDown, 3, 3⟩) appScroll
      = if coord_in_rect (3, 3) ⟨2, 2, 3, 3⟩ then
          (appScroll.connection_log_next).map (fun a => (a, ([] : List Effect)))
        else some (appScroll, []) :=
  (c5_scroll_hit_test envOk appScroll ⟨2, 2, 3, 3⟩ 3 3 rfl rfl).1

/-- Claim C6: when the regenerate action is triggered (Enter while it has
focus) and building the new network handle fails, a descriptive entry ends
up in the diagnostic log and the previously live swarm handle is left
unchanged; the UI state and the history are untouched. -/
theorem c6_regenerate_failure (env : Env) (app : App) (e : String)
    (hfoc : app.ui.connection_page_focus = ConnectionPageFocus.regenerateSwarm)
    (hgen : env.generateResult = Except.error e) :
    ∃ a2, handle_input_event_connection_page env
        (Event.key KeyCode.enter KeyModifiers.mnone) app
        = some (a2, [Effect.generateSwarm])
      ∧ a2.connection.swarm = app.connection.swarm
      ∧ a2.connection.log = ["regenerate_swarm() failed with Err " ++ e]
      ∧ a2.ui = app.ui
      ∧ a2.history = app.history := by
  obtain ⟨⟨pf, cpf, ci, ai, alloc, ls⟩, hist, ⟨sw, lg, tp⟩⟩ := app
  obtain ⟨pr, gr, dr, pm⟩ := env
  simp only [] at hfoc hgen
  subst hfoc
  subst hgen
  exact ⟨_, rfl, rfl, rfl, rfl, rfl⟩

/-- Claim C6, witness. -/
theorem c6_regenerate_failure_witness :
    ∃ a2, handle_input_event_connection_page envGenErr
        (Event.key KeyCode.enter KeyModifiers.mnone) appRegen
        = some (a2, [Effect.generateSwarm])
      ∧ a2.connection.swarm = appRegen.connection.swarm
      ∧ a2.connection.log = ["regenerate_swarm() failed with Err " ++ "keygen failed"]
      ∧ a2.ui = appRegen.ui
      ∧ a2.history = appRegen.history :=
  c6_regenerate_failure envGenErr appRegen "keygen failed" rfl rfl

/-- Claim C7: pressing Enter on the Chat page appends exactly one message
to the history whose text is the chat-input buffer's contents and whose
author is the local peer identity, requests exactly one publish of the
buffer on the current topic, and clears the buffer — whatever the publish
outcome; on publish success the connection state is untouched, and on
publish failure one "Publish error: <details>" entry is additionally
appended to the diagnostic log. -/
theorem c7_chat_enter (env : Env) (app : App)
    (hpage : app.ui.page_focus = PageFocus.chat) :
    ∃ a2 effs, handle_input_event env (Event.key KeyCode.enter KeyModifiers.mnone) app
        = some (a2, effs, InputTask.cont)
      ∧ a2.history = app.history
          ++ [Message.new app.ui.chat_input app.connection.swarm.peerId]
      ∧ a2.ui.chat_input = ""
      ∧ effs = [Effect.publish app.connection.current_topic app.ui.chat_input]
      ∧ (env.publishResult = Except.ok () → a2.connection = app.connection)
      ∧ (∀ e, env.publishResult = Except.error e →
          a2.connection.log = app.connection.log ++ ["Publish error: " ++ e]) := by
  obtain ⟨⟨pf, cpf, ci, ai, alloc, ls⟩, hist, ⟨sw, lg, tp⟩⟩ := app
  obtain ⟨pr, gr, dr, pa⟩ := env
  simp only [] at hpage
  subst hpage
  rcases pr with e0 | u
  · refine ⟨_, _, rfl, rfl, rfl, rfl, fun h => Except.noConfusion h, fun e he => ?_⟩
    injection he with h1
    subst h1
    rfl
  · cases u
    exact ⟨_, _, rfl, rfl, rfl, rfl, fun _ => rfl, fun e he => Except.noConfusion he⟩

/-- Claim C7, witness (publish failing, the richer branch). -/
theorem c7_chat_enter_witness :
    ∃ a2 effs, handle_input_event envPubErr (Event.key KeyCode.enter KeyModifiers.mnone) appChat
        = some (a2, effs, InputTask.cont)
      ∧ a2.history = appChat.history
          ++ [Message.new appChat.ui.chat_input appChat.connection.swarm.peerId]
      ∧ a2.ui.chat_input = ""
      ∧ effs = [Effect.publish appChat.connection.current_topic appChat.ui.chat_input]
      ∧ (envPubErr.publishResult = Except.ok () → a2.connection = appChat.connection)
      ∧ (∀ e, envPubErr.publishResult = Except.error e →
          a2.connection.log = appChat.connection.log ++ ["Publish error: " ++ e]) :=
  c7_chat_enter envPubErr appChat rfl

/-- Claim C8: pressing Enter on the Connection page while the address field
has focus, when the buffer fails to parse as a multiaddr, appends exactly
one diagnostic log entry containing the parse error, requests no effect at
all (in particular no dial), and leaves the UI state, the history, the
swarm handle and the current topic unchanged. -/
theorem c8_addr_parse_failure (env : Env) (app : App) (e : String)
    (hpage : app.ui.page_focus = PageFocus.connection)
    (hfoc : app.ui.connection_page_focus = ConnectionPageFocus.addrInputField)
    (hp : env.parseResult = Except.error e) :
    ∃ a2, handle_input_event env (Event.key KeyCode.enter KeyModifiers.mnone) app
        = some (a2, [], InputTask.cont)
      ∧ a2.connection.log = app.connection.log
          ++ ["parsing input as MultiAddr failed with Err " ++ e]
      ∧ a2.ui = app.ui
      ∧ a2.history = app.history
      ∧ a2.connection.swarm = app.connection.swarm
      ∧ a2.connection.current_topic = app.connection.current_topic := by
  obtain ⟨⟨pf, cpf, ci, ai, alloc, ls⟩, hist, ⟨sw, lg, tp⟩⟩ := app
  obtain ⟨pr, gr, dr, pa⟩ := env
  simp only [] at hpage hfoc hp
  subst hpage
  subst hfoc
  subst hp
  exact ⟨_, rfl, rfl, rfl, rfl, rfl, rfl⟩

/-- Claim C8, witness: the buffer "not-an-address" with a failing parse. -/
theorem c8_addr_parse_failure_witness :
    ∃ a2, handle_input_event envOk (Event.key KeyCode.enter KeyModifiers.mnone) appAddr
        = some (a2, [], InputTask.cont)
      ∧ a2.connection.log = appAddr.connection.log
          ++ ["parsing input as MultiAddr failed with Err " ++ "invalid multiaddr"]
      ∧ a2.ui = appAddr.ui
      ∧ a2.history = appAddr.history
      ∧ a2.connection.swarm = appAddr.connection.swarm
      ∧ a2.connection.current_topic = appAddr.connection.current_topic :=
  c8_addr_parse_failure envOk appAddr "invalid multiaddr" rfl rfl rfl

/-- Claim C9, amended: on a connection log of length L ≥ 1, with no prior
selection one `next` selects index 0; for every current selection index
i < L, `next` selects min(i+1, L-1), so repeated `next` calls saturate at
L-1 and never exceed it; and for every current selection index i,
`previous` selects i-1 in truncated natural subtraction (max(i-1, 0)), so
repeated `previous` calls saturate at 0.  (The original claim's `next`
clause, stated for every index i, fails when i > L-1.) -/
theorem c9_selection_saturation (app : App) (i : Nat)
    (hL : 1 ≤ app.connection.log.length) :
    (app.ui.connection_log_liststate.selected = none →
      ∃ a2, app.connection_log_next = some a2
        ∧ a2.ui.connection_log_liststate.selected = some 0)
    ∧ (app.ui.connection_log_liststate.selected = some i →
        i < app.connection.log.length →
      ∃ a2, app.connection_log_next = some a2
        ∧ a2.ui.connection_log_liststate.selected
            = some (min (i + 1) (app.connection.log.length - 1)))
    ∧ (app.ui.connection_log_liststate.selected = some i →
      app.connection_log_previous.ui.connection_log_liststate.selected
        = some (i - 1)) := by
  obtain ⟨⟨pf, cpf, ci, ai, alloc, ⟨sel, off⟩⟩, hist, ⟨sw, lg, tp⟩⟩ := app
  simp only [] at hL
  refine ⟨?_, ?_, ?_⟩
  · intro hsel
    simp only [] at hsel
    subst hsel
    exact ⟨_, rfl, rfl⟩
  · intro hsel hi
    simp only [] at hsel hi
    subst hsel
    have h0 : ¬ lg.length = 0 := by omega
    have hmin : (if lg.length - 1 ≤ i then i else i + 1)
        = min (i + 1) (lg.length - 1) := by
      rw [min_def]
      split <;> split <;> omega
    refine ⟨⟨⟨pf, cpf, ci, ai, alloc,
        ⟨some (if lg.length - 1 ≤ i then i else i + 1), off⟩⟩,
      hist, ⟨sw, lg, tp⟩⟩, ?_, ?_⟩
    · show (if lg.length = 0 then none else _) = _
      rw [if_neg h0]
      rfl
    · show some (if lg.length - 1 ≤ i then i else i + 1)
          = some (min (i + 1) (lg.length - 1))
      rw [hmin]
  · intro hsel
    simp only [] at hsel
    subst hsel
    show some (if i = 0 then 0 else i - 1) = some (i - 1)
    have : (if i = 0 then 0 else i - 1) = i - 1 := by
      split <;> omega
    rw [this]

/-- Claim C9, witness for the amended theorem: log ["a", "b"], selection at
index 0, one `next` moves it to min(1, 1) = 1. -/
theorem c9_selection_saturation_witness :
    ∃ a2, appSat.connection_log_next = some a2
      ∧ a2.ui.connection_log_liststate.selected
          = some (min (0 + 1) (appSat.connection.log.length - 1)) :=
  (c9_selection_saturation appSat 0 (by decide)).2.1 rfl (by decide)

/-- Claim C1, amended: from a state satisfying the selection invariant
(selection index, when present, strictly below the log length) with a
nonempty log, the invariant is preserved by a log append, by
`connection_log_next` (which then cannot panic) and by
`connection_log_previous`; but the initial state construction violates the
claim (index 0 is selected while the log is empty), and the regeneration
action clears the log while keeping a present selection index unchanged,
also violating it. -/
theorem c1_selection_invariant (app : App) (e : String) (w : Swarm)
    (h : selInvariant app) (hne : app.connection.log ≠ []) :
    selInvariant (app.pushLog e)
    ∧ (∃ a2, app.connection_log_next = some a2 ∧ selInvariant a2)
    ∧ selInvariant app.connection_log_previous
    ∧ ((App.new w).ui.connection_log_liststate.selected = some 0
        ∧ (App.new w).connection.log = [])
    ∧ (∀ env i w2, app.ui.connection_page_focus = ConnectionPageFocus.regenerateSwarm →
        app.ui.connection_log_liststate.selected = some i →
        env.generateResult = Except.ok w2 →
        ∃ a3 effs,
          handle_input_event_connection_page env
              (Event.key KeyCode.enter KeyModifiers.mnone) app = some (a3, effs)
            ∧ a3.ui.connection_log_liststate.selected = some i
            ∧ a3.connection.log = []
            ∧ ¬ selInvariant a3) := by
  obtain ⟨⟨pf, cpf, ci, ai, alloc, ⟨sel, off⟩⟩, hist, ⟨sw, lg, tp⟩⟩ := app
  simp only [] at hne
  have hlen : 1 ≤ lg.length := by
    cases lg with
    | nil => exact absurd rfl hne
    | cons a l => simp
  rcases sel with _ | i
  · refine ⟨trivial, ⟨_, rfl, ?_⟩, ?_, ⟨rfl, rfl⟩, ?_⟩
    · show (0 : Nat) < lg.length
      omega
    · show (0 : Nat) < lg.length
      omega
    · intro env i2 w2 hfoc hsel hgen
      exact Option.noConfusion hsel
  · have hi : i < lg.length := h
    refine ⟨?_, ?_, ?_, ⟨rfl, rfl⟩, ?_⟩
    · show i < (lg ++ [e]).length
      rw [List.length_append]
      omega
    · refine ⟨⟨⟨pf, cpf, ci, ai, alloc,
          ⟨some (if lg.length - 1 ≤ i then i else i + 1), off⟩⟩,
        hist, ⟨sw, lg, tp⟩⟩, ?_, ?_⟩
      · show (if lg.length = 0 then none else _) = _
        rw [if_neg (by omega)]
        rfl
      · show (if lg.length - 1 ≤ i then i else i + 1) < lg.length
        split <;> omega
    · show (if i = 0 then 0 else i - 1) < lg.length
      split <;> omega
    · intro env i2 w2 hfoc hsel hgen
      simp only [] at hfoc hsel
      injection hsel with hii
      subst hii
      subst hfoc
      obtain ⟨pr, gr, dr, pa⟩ := env
      simp only [] at hgen
      subst hgen
      refine ⟨_, _, rfl, rfl, rfl, ?_⟩
      intro hbad
      have hzero : i < ([] : List String).length := hbad
      simp at hzero

/-- Claim C1, witness: the preservation part of the amended theorem applied
to a concrete state (log ["a", "b"], index 0 selected). -/
theorem c1_selection_invariant_witness :
    selInvariant (appSat.pushLog "x") :=
  (c1_selection_invariant appSat "x" swarmQ (by decide) (by decide)).1

end P2pchat
